import Mathlib

/-!
Verification of the DisparaPrompta bulk-message dispatcher.

The repository contains four near-identical Node.js servers.  This file
shallowly embeds the scheduler core of the variant `src/unnamed/part_000`
(identical scheduler logic appears in `src/unnamed/part_002`) and the
variant `src/server.js`, together with the CSV row handlers, the message
templating, the log buffer and the scheduled-start arithmetic, and proves
the stated properties about these embeddings.

Conventions of the embedding:
- Machine strings are Lean `String`; the JS string primitives used by the
  code (`replace` with a string pattern = first occurrence, `replace` with
  a `/g` regex on a literal pattern = every occurrence left to right,
  `trim`, truthiness of strings) are implemented below over `List Char`.
  Dollar escapes in the replacement string of JS `replace` are not used by
  the repository and are not modelled.
- The asynchronous drain loop of part_000 (`processMessageQueue`) is
  modelled as a state machine.  One invocation of `processMessageQueue`
  splits into an `enter` event (the synchronous guard and `shift`) and a
  `finish` event (the continuation after `await sendMessage`): JS being
  single threaded, other handlers can interleave only at the `await` and
  at the `setTimeout` boundaries, which is exactly what the two events
  expose.  `sendMessage` catches every transport error internally and
  returns a success flag, so a send is abstracted by the Bool outcome of
  the corresponding `finish` event.
- `setTimeout(processMessageQueue, delay)` and the direct calls of
  `processMessageQueue()` from the start-now route and the cron callback
  are modelled by the `timerPending` flag that enables the next `enter`.
- The cron job armed by `scheduleDispatch` is modelled by the `cronArmed`
  flag and the `cronFire` event (node-cron fires the callback at the next
  wall-clock occurrence of the configured time, daily).
-/

/-! ### JS string primitives -/

/-- Boolean prefix test on character lists (used to locate a literal
pattern, as JS `String.prototype.replace` does). -/
def startsWithL : List Char → List Char → Bool
  | [], _ => true
  | _ :: _, [] => false
  | p :: ps, c :: cs => p = c && startsWithL ps cs

/-- JS `s.replace(pat, rep)` with a string pattern: replace the first
occurrence of `pat` in `s` by `rep`; `s` is returned unchanged when `pat`
does not occur. -/
def replaceFirst (s pat rep : List Char) : List Char :=
  match s with
  | [] => if pat = [] then rep else []
  | c :: rest =>
    if startsWithL pat (c :: rest) then rep ++ (c :: rest).drop pat.length
    else c :: replaceFirst rest pat rep

/-- Fuelled worker for `replaceAll`; the fuel bounds the number of scanned
characters, so `s.length` fuel always suffices. -/
def replaceAllFuel (pat rep : List Char) : Nat → List Char → List Char
  | 0, s => s
  | _ + 1, [] => []
  | fuel + 1, c :: rest =>
    if pat ≠ [] ∧ startsWithL pat (c :: rest) then
      rep ++ replaceAllFuel pat rep fuel ((c :: rest).drop pat.length)
    else c :: replaceAllFuel pat rep fuel rest

/-- JS `s.replace(/pat/g, rep)` on a literal pattern: replace every
(left-to-right, non-overlapping) occurrence of `pat` in `s` by `rep`. -/
def replaceAll (s pat rep : List Char) : List Char :=
  replaceAllFuel pat rep s.length s

/-- JS truthiness of an optional string field: absent and empty are falsy. -/
def jsTruthy : Option String → Bool
  | some s => s != ""
  | none => false

/-- JS `a || b` on two optional string fields: the first operand when it is
truthy, otherwise the second. -/
def jsOr2 (a b : Option String) : Option String :=
  match a with
  | some s => if s = "" then b else some s
  | none => b

/-- JS `a || d` with a string default: the field when truthy, else `d`. -/
def jsOrD (a : Option String) (d : String) : String :=
  match a with
  | some s => if s = "" then d else s
  | none => d

/-- JS `a || null`: normalises a falsy field to `none`. -/
def jsOrNull (a : Option String) : Option String :=
  match a with
  | some s => if s = "" then none else some s
  | none => none

/-- JS `s.replace(/\D/g, "")`: keep only decimal digits. -/
def stripNonDigits (s : String) : String :=
  ⟨s.data.filter fun c => c.isDigit⟩

/-- JS `s.startsWith(pre)`. -/
def jsStartsWith (s pre : String) : Bool :=
  startsWithL pre.data s.data

/-- ASCII whitespace test for `trim` (the repository only trims ordinary
spaces around CSV fields). -/
def isWSp (c : Char) : Bool :=
  c = ' ' || c = '\t' || c = '\n' || c = '\r'

/-- JS `s.trim()`. -/
def jsTrim (s : String) : String :=
  ⟨((s.data.dropWhile isWSp).reverse.dropWhile isWSp).reverse⟩

/-! ### part_000 scheduler (identical logic in part_002)

Globals of part_000: `messageQueue`, `currentConfig = {delay, startTime,
isRunning}`.  The ghost fields `sent`, `waits` and `completions` record,
respectively, the outcome log of the sends in the order they were
performed, the wait durations scheduled between consecutive sends, and the
number of times the drain loop itself assigned `isRunning = false` on
emptying the queue. -/

/-- A contact produced by `processCSV` (part_000/part_002): `mensagem` is
`null` (`none`) when the row carried no usable per-contact message. -/
structure Contact where
  nome : String
  numero : String
  mensagem : Option String
deriving DecidableEq

/-- A queued job as built by `scheduleDispatch`. -/
structure Job where
  nome : String
  numero : String
  mensagem : String
deriving DecidableEq

/-- HTTP-level result of a route handler: `ok` is a 200 JSON success
response (payload not modelled), `err` carries the status code and the
error message of the JSON body. -/
inductive Resp where
  | ok : Resp
  | err : Nat → String → Resp
deriving DecidableEq

/-- State of the part_000 scheduler: the queue and `currentConfig`
globals, the event-machine bookkeeping (`inFlight`, `timerPending`,
`cronArmed`) and the ghost observation fields. -/
structure P0State where
  queue : List Job
  delay : Nat
  startTime : Option String
  isRunning : Bool
  inFlight : Option Job
  timerPending : Bool
  cronArmed : Bool
  sent : List (Job × Bool)
  waits : List Nat
  completions : Nat
deriving DecidableEq

/-- The synchronous head of one `processMessageQueue` invocation: the
invocation fires (consuming the pending call), checks
`messageQueue.length === 0 || !currentConfig.isRunning`, and otherwise
shifts the head job and starts its send. -/
def enterStep (s : P0State) : P0State :=
  if s.timerPending then
    let s1 := { s with timerPending := false }
    if s1.queue = [] ∨ s1.isRunning = false then s1
    else
      match s1.queue with
      | [] => s1
      | j :: rest => { s1 with queue := rest, inFlight := some j }
  else s

/-- The continuation of `processMessageQueue` after `await sendMessage`:
record the outcome, then either schedule the next invocation after
`currentConfig.delay` (queue still non-empty) or conclude the batch by
setting `isRunning = false` (counted in `completions`). -/
def finishStep (ok : Bool) (s : P0State) : P0State :=
  match s.inFlight with
  | none => s
  | some j =>
    let s1 := { s with inFlight := none, sent := s.sent ++ [(j, ok)] }
    if s1.queue = [] then
      { s1 with isRunning := false, completions := s1.completions + 1 }
    else
      { s1 with timerPending := true, waits := s1.waits ++ [s1.delay] }

/-- `POST /api/stop` of part_000: sets `currentConfig.isRunning = false`
and nothing else (part_002 additionally clears the queue, see
`p2StopStep`). -/
def stopStep (s : P0State) : P0State :=
  { s with isRunning := false }

/-- `POST /api/start-now` of part_000 (part_002 is identical): reject an
empty queue, reject while running, otherwise set `isRunning = true` and
invoke `processMessageQueue`. -/
def startNowStep (s : P0State) : Resp × P0State :=
  if s.queue = [] then (.err 400 "Nenhuma mensagem na fila", s)
  else if s.isRunning then (.err 400 "Disparo já está em execução", s)
  else (.ok, { s with isRunning := true, timerPending := true })

/-- The job built by `scheduleDispatch` for one contact: the per-contact
message when present (JS `contact.mensagem || message`), else the batch
template. -/
def mkJob (template : String) (c : Contact) : Job :=
  { nome := c.nome, numero := c.numero, mensagem := jsOrD c.mensagem template }

/-- `scheduleDispatch(contacts, message, delay, startTime)` of part_000:
stores delay and start time, replaces the queue wholesale, and arms a
daily cron at the given wall-clock time. -/
def scheduleDispatch (s : P0State) (contacts : List Contact)
    (message : String) (delay : Nat) (startTime : String) : P0State :=
  { s with
    delay := delay
    startTime := some startTime
    queue := contacts.map (mkJob message)
    cronArmed := true }

/-- `POST /api/upload` of part_000: 400 on a missing file, missing body
parameters or an empty parsed contact list, otherwise `scheduleDispatch`.
`contacts` is the result of `processCSV` on the uploaded file and
`delayParsed` the value of `parseInt(delay)` (CSV streaming and JS
number parsing are external to the scheduler). -/
def uploadHandler (s : P0State) (hasFile : Bool)
    (message delayStr startTime : Option String)
    (delayParsed : Nat) (contacts : List Contact) : Resp × P0State :=
  if hasFile = false then (.err 400 "Arquivo CSV não enviado", s)
  else if jsTruthy message = false ∨ jsTruthy delayStr = false ∨
      jsTruthy startTime = false then
    (.err 400 "Parâmetros obrigatórios não fornecidos", s)
  else if contacts = [] then
    (.err 400 "Nenhum contato válido encontrado no CSV", s)
  else
    (.ok, scheduleDispatch s contacts (jsOrD message "")
      (delayParsed * 1000) (jsOrD startTime ""))

/-- Events at which the part_000 globals can change: the two halves of a
`processMessageQueue` invocation, the stop and start-now routes, and the
firing of the armed cron (whose callback sets `isRunning = true` and
invokes `processMessageQueue`). -/
inductive Ev where
  | enter : Ev
  | finish : Bool → Ev
  | stop : Ev
  | startNow : Ev
  | cronFire : Ev
deriving DecidableEq

/-- Effect of one event on the part_000 state. -/
def evStep : Ev → P0State → P0State
  | .enter, s => enterStep s
  | .finish ok, s => finishStep ok s
  | .stop, s => stopStep s
  | .startNow, s => (startNowStep s).2
  | .cronFire, s =>
    if s.cronArmed then { s with isRunning := true, timerPending := true } else s

/-- Run a sequence of events. -/
def runEvents (t : List Ev) (s : P0State) : P0State :=
  t.foldl (fun s e => evStep e s) s

/-- One uninterrupted round of the drain loop: the pending invocation
enters and its send completes with outcome `ok`. -/
def drainStep (s : P0State) (ok : Bool) : P0State :=
  finishStep ok (enterStep s)

/-- The drain loop run to completion with the given send outcomes, one
outcome per queued job. -/
def drainRun (outcomes : List Bool) (s : P0State) : P0State :=
  outcomes.foldl drainStep s

/-- Message rendering of part_000 `sendMessage`:
`mensagem.replace("{nome}", nome).replace("{name}", nome)` — string
patterns, so only the first occurrence of each token is replaced. -/
def renderP0 (mensagem nome : String) : String :=
  ⟨replaceFirst (replaceFirst mensagem.data "{nome}".data nome.data)
    "{name}".data nome.data⟩

/-- Message rendering of part_002 `sendMessage`:
`mensagem.replace(/{nome}/g, nome).replace(/{name}/g, nome)` — global
regexes, so every occurrence of each token is replaced. -/
def renderP2 (mensagem nome : String) : String :=
  ⟨replaceAll (replaceAll mensagem.data "{nome}".data nome.data)
    "{name}".data nome.data⟩

/-- A raw CSV row as seen by `processCSV` of part_000/part_002: the six
column fields it consults (`none` = column absent). -/
structure P0Row where
  numero : Option String
  number : Option String
  nome : Option String
  name : Option String
  mensagem : Option String
  message : Option String
deriving DecidableEq

/-- One row of `processCSV` (part_000 and part_002 are identical): a
contact is pushed whenever `data.numero || data.number` is truthy; the
number is only stripped to digits (no country-code normalisation), the
name defaults to "Contato", and a falsy message becomes `null`. -/
def processCSVRow (r : P0Row) : Option Contact :=
  match jsOrNull (jsOr2 r.numero r.number) with
  | none => none
  | some v =>
    some
      { nome := jsOrD (jsOr2 r.nome r.name) "Contato"
        numero := stripNonDigits v
        mensagem := jsOrNull (jsOr2 r.mensagem r.message) }

/-- `processCSV` of part_000/part_002 over a whole file. -/
def processCSVRows (rows : List P0Row) : List Contact :=
  rows.filterMap processCSVRow

/-! ### part_002 specific routes

part_002 duplicates the part_000 scheduler; its start-now route is
character-for-character the same check sequence, and its stop route
additionally clears the queue.  A reduced state mirroring its globals is
enough for the start-now/stop claims. -/

/-- The part_002 globals consulted by its start-now and stop routes. -/
structure P2State where
  queue : List Job
  delay : Nat
  startTime : Option String
  isRunning : Bool
deriving DecidableEq

/-- `POST /api/start-now` of part_002. -/
def p2StartNow (s : P2State) : Resp × P2State :=
  if s.queue = [] then (.err 400 "Nenhuma mensagem na fila", s)
  else if s.isRunning then (.err 400 "Disparo já está em execução", s)
  else (.ok, { s with isRunning := true })

/-- `POST /api/stop` of part_002: stops and clears the queue. -/
def p2StopStep (s : P2State) : P2State :=
  { s with isRunning := false, queue := [] }

/-! ### server.js

The `src/server.js` variant keeps the contact list in `sendingData` and
drains it with a `for` loop inside `startSendingProcess`; its stop route
merely flips `isSending`. -/

/-- One log entry as built by `addLog` in server.js (also part_001, which
has the identical function). -/
structure LogEntry where
  timestamp : String
  message : String
  type : String
deriving DecidableEq

/-- `addLog` of server.js/part_001: push the entry, then
`logs = logs.slice(-100)` whenever the length exceeds 100. -/
def addLog (logs : List LogEntry) (e : LogEntry) : List LogEntry :=
  if 100 < (logs ++ [e]).length then
    (logs ++ [e]).drop ((logs ++ [e]).length - 100)
  else logs ++ [e]

/-- A contact produced by the server.js CSV row handler (the message
always defaults, so it is a plain string there). -/
structure SJContact where
  telefone : String
  nome : String
  mensagem : String
deriving DecidableEq

/-- A raw server.js CSV row after its flexible column-name lookup: the
values found under the phone, name and message keys (`none` = no matching
column or `undefined`). -/
structure SJRow where
  telefone : Option String
  nome : Option String
  mensagem : Option String
deriving DecidableEq

/-- The row handler of `POST /api/upload-csv` in server.js: strip the
phone to digits, keep the row only when at least 10 digits remain, and
prepend the country code 55 when missing; name and message default to
"Cliente" and "Olá!". -/
def rowToContact (r : SJRow) : Option SJContact :=
  if stripNonDigits (jsOrD r.telefone "") ≠ "" ∧
      10 ≤ (stripNonDigits (jsOrD r.telefone "")).data.length then
    some
      { telefone :=
          if jsStartsWith (stripNonDigits (jsOrD r.telefone "")) "55" then
            stripNonDigits (jsOrD r.telefone "")
          else "55" ++ stripNonDigits (jsOrD r.telefone "")
        nome := jsOrD (some (jsTrim (jsOrD r.nome "Cliente"))) "Cliente"
        mensagem := jsOrD (some (jsTrim (jsOrD r.mensagem "Olá!"))) "Olá!" }
  else none

/-- The whole-file row pass of `POST /api/upload-csv`. -/
def rowsToContacts (rows : List SJRow) : List SJContact :=
  rows.filterMap rowToContact

/-- The `sendingData` fields mutated by the upload route. -/
structure SendingData where
  current : Nat
  total : Nat
  contacts : List SJContact
deriving DecidableEq

/-- The `end` callback of `POST /api/upload-csv`: zero surviving rows is a
400 upload-level error with no state change, otherwise the batch replaces
`sendingData.contacts`. -/
def uploadCsvEnd (sd : SendingData) (contacts : List SJContact) :
    Resp × SendingData :=
  if contacts = [] then
    (.err 400
      "Nenhum contato válido encontrado no CSV. Verifique as colunas: telefone, nome, mensagem",
      sd)
  else
    (.ok, { sd with contacts := contacts, total := contacts.length, current := 0 })

/-- One processed contact of `startSendingProcess` with the outcome of its
send attempt. -/
structure SJRec where
  contact : SJContact
  ok : Bool
deriving DecidableEq

/-- The `for` loop of `startSendingProcess` run without interruption
(`isSending` stays true), over the contact list paired with the outcome of
each send attempt.  Returns the processed records in order and the list of
waits inserted between consecutive contacts: the configured delay after a
success, a fixed 1000 ms after a failure, and no wait after the last
contact. -/
def sjRun (delay : Nat) : List (SJContact × Bool) → List SJRec × List Nat
  | [] => ([], [])
  | (c, ok) :: rest =>
    let r := sjRun delay rest
    (⟨c, ok⟩ :: r.1,
      if rest = [] then r.2 else (if ok then delay else 1000) :: r.2)

/-- Milliseconds in a day, as used by the `Date` arithmetic of the
scheduled-start branch. -/
def msPerDay : Nat := 86400000

/-- The target instant computed by the scheduled-start branch of
`POST /api/start-sending`: `targetTime.setHours(h, m, 0, 0)` on the
current day, pushed to the next day when not in the future
(`if (targetTime <= now) targetTime.setDate(getDate() + 1)`).  Instants
are milliseconds of local time since a local midnight epoch (DST shifts
are not modelled). -/
def sjTarget (nowMs h m : Nat) : Nat :=
  if (nowMs / msPerDay) * msPerDay + (h * 60 + m) * 60000 ≤ nowMs then
    (nowMs / msPerDay) * msPerDay + (h * 60 + m) * 60000 + msPerDay
  else (nowMs / msPerDay) * msPerDay + (h * 60 + m) * 60000

/-- Decision taken by `POST /api/start-sending`. -/
inductive StartDecision where
  | rejected : Nat → String → StartDecision
  | scheduled : Nat → StartDecision
  | immediate : StartDecision
deriving DecidableEq

/-- `POST /api/start-sending`: reject when not connected, when no contacts
are loaded or when a send is already in progress; with a start time,
schedule the batch for the computed target instant when it is in the
future; otherwise start immediately. -/
def startSendingHandler (connected sending : Bool) (contactsLen : Nat)
    (startTime : Option (Nat × Nat)) (nowMs : Nat) : StartDecision :=
  if connected = false then .rejected 400 "WhatsApp não está conectado"
  else if contactsLen = 0 then .rejected 400 "Nenhum contato carregado"
  else if sending then .rejected 400 "Envio já está em andamento"
  else
    match startTime with
    | some (h, m) =>
      if 0 < sjTarget nowMs h m - nowMs then .scheduled (sjTarget nowMs h m)
      else .immediate
    | none => .immediate

/-! ### Concrete sample values for witnesses and counterexamples -/

/-- Initial part_000 state: `messageQueue = []`,
`currentConfig = {delay: 5000, startTime: null, isRunning: false}`. -/
def p0Init : P0State :=
  { queue := [], delay := 5000, startTime := none, isRunning := false,
    inFlight := none, timerPending := false, cronArmed := false,
    sent := [], waits := [], completions := 0 }

/-- A sample contact. -/
def cAna : Contact :=
  { nome := "Ana", numero := "5511999999999", mensagem := none }

/-- A second sample contact. -/
def cBia : Contact :=
  { nome := "Bia", numero := "5511888888888", mensagem := some "Oi {nome}" }

/-- A sample queued job. -/
def jAna : Job :=
  { nome := "Ana", numero := "5511999999999", mensagem := "Olá {nome}" }

/-- A second sample queued job. -/
def jBia : Job :=
  { nome := "Bia", numero := "5511888888888", mensagem := "Oi {nome}" }

/-! ### Scenario definitions and sample values -/

/-- The upload route followed by the start-now route of part_000: the two
responses and the resulting scheduler state. -/
def uploadThenStartNow (s : P0State) (message delayStr startTime : String)
    (delayParsed : Nat) (contacts : List Contact) : Resp × Resp × P0State :=
  ((uploadHandler s true (some message) (some delayStr) (some startTime)
      delayParsed contacts).1,
    (startNowStep (uploadHandler s true (some message) (some delayStr)
      (some startTime) delayParsed contacts).2).1,
    (startNowStep (uploadHandler s true (some message) (some delayStr)
      (some startTime) delayParsed contacts).2).2)

/-- A part_000 state in the middle of a batch: one job pending, running. -/
def c2State : P0State :=
  { p0Init with queue := [jAna], isRunning := true }

/-- A part_000 state during the pre-schedule wait: a batch armed on the
cron, not yet running. -/
def c3State : P0State :=
  { p0Init with queue := [jAna], startTime := some "08:00", cronArmed := true }

/-- A part_000 state about to drain a two-job queue with delay 5000 ms. -/
def c8State : P0State :=
  { p0Init with queue := [jAna, jBia], isRunning := true, timerPending := true }

/-- A part_002 state with an empty queue. -/
def p2Empty : P2State :=
  { queue := [], delay := 5000, startTime := none, isRunning := false }

/-- A part_002 state with a pending job and a running batch. -/
def p2Busy : P2State :=
  { queue := [jAna], delay := 5000, startTime := none, isRunning := true }

/-- A sample server.js contact. -/
def sjA : SJContact := ⟨"5511999999999", "Ana", "Olá {nome}"⟩

/-- A second sample server.js contact. -/
def sjB : SJContact := ⟨"5511888888888", "Bia", "Oi"⟩

/-- A sample log entry. -/
def le0 : LogEntry := ⟨"10/10/2025 10:00:00", "Servidor iniciado na porta 3000", "info"⟩

/-! ### Helper lemmas about the JS string primitives -/

theorem startsWithL_iff (p s : List Char) : startsWithL p s = true ↔ p <+: s := by
  induction p generalizing s with
  | nil => simp [startsWithL]
  | cons a ps ih =>
    cases s with
    | nil => simp [startsWithL]
    | cons c cs => simp [startsWithL, ih, List.cons_prefix_cons]

theorem inf_of_pref {p s : List Char} (h : p <+: s) : p <:+: s := by
  obtain ⟨t, rfl⟩ := h; exact ⟨[], t, rfl⟩

theorem inf_cons {p l : List Char} {c : Char} (h : p <:+: l) : p <:+: c :: l := by
  obtain ⟨u, t, rfl⟩ := h; exact ⟨c :: u, t, rfl⟩

theorem replaceFirst_no_occ (s pat rep : List Char) (h : ¬ pat <:+: s) :
    replaceFirst s pat rep = s := by
  induction s with
  | nil =>
    have hpat : ¬ pat = [] := by rintro rfl; exact h ⟨[], [], rfl⟩
    simp [replaceFirst, hpat]
  | cons c rest ih =>
    have hpre : startsWithL pat (c :: rest) = false := by
      rw [Bool.eq_false_iff, Ne, startsWithL_iff]
      intro hp
      exact h (inf_of_pref hp)
    rw [replaceFirst, hpre]
    simp only [Bool.false_eq_true, if_false]
    exact congrArg (c :: ·) (ih fun hin => h (inf_cons hin))

theorem replaceAllFuel_no_occ (pat rep : List Char) (fuel : Nat) (s : List Char)
    (h : ¬ pat <:+: s) : replaceAllFuel pat rep fuel s = s := by
  induction fuel generalizing s with
  | zero => rfl
  | succ fuel ih =>
    cases s with
    | nil => rfl
    | cons c rest =>
      have hpre : startsWithL pat (c :: rest) = false := by
        rw [Bool.eq_false_iff, Ne, startsWithL_iff]
        intro hp
        exact h (inf_of_pref hp)
      rw [replaceAllFuel, hpre]
      simp only [Bool.false_eq_true, and_false, if_false]
      exact congrArg (c :: ·) (ih rest fun hin => h (inf_cons hin))

theorem replaceAll_no_occ (s pat rep : List Char) (h : ¬ pat <:+: s) :
    replaceAll s pat rep = s :=
  replaceAllFuel_no_occ pat rep s.length s h

/-! ### Helper lemmas about the part_000 drain loop and event traces -/

theorem drainStep_eq (s : P0State) (ok : Bool) (j : Job) (rest : List Job)
    (hq : s.queue = j :: rest) (hr : s.isRunning = true) (ht : s.timerPending = true)
    (hi : s.inFlight = none) :
    drainStep s ok =
      if rest = [] then
        { s with
            queue := ([] : List Job)
            timerPending := false
            inFlight := none
            sent := s.sent ++ [(j, ok)]
            isRunning := false
            completions := s.completions + 1 }
      else
        { s with
            queue := rest
            timerPending := true
            inFlight := none
            sent := s.sent ++ [(j, ok)]
            waits := s.waits ++ [s.delay] } := by
  rcases Decidable.em (rest = []) with hrest | hrest
  · subst hrest
    simp [drainStep, enterStep, finishStep, hq, hr, ht, hi]
  · simp [drainStep, enterStep, finishStep, hq, hr, ht, hi, hrest]

theorem drainRun_spec (outcomes : List Bool) (s : P0State)
    (hq : s.queue ≠ []) (hr : s.isRunning = true) (ht : s.timerPending = true)
    (hi : s.inFlight = none) (hl : outcomes.length = s.queue.length) :
    (drainRun outcomes s).queue = [] ∧
    (drainRun outcomes s).isRunning = false ∧
    (drainRun outcomes s).completions = s.completions + 1 ∧
    (drainRun outcomes s).sent = s.sent ++ s.queue.zip outcomes ∧
    (drainRun outcomes s).waits
      = s.waits ++ List.replicate (s.queue.length - 1) s.delay ∧
    (drainRun outcomes s).delay = s.delay ∧
    (drainRun outcomes s).startTime = s.startTime := by
  induction outcomes generalizing s with
  | nil =>
    obtain ⟨j, qrest, hqe⟩ := List.exists_cons_of_ne_nil hq
    rw [hqe] at hl
    simp at hl
  | cons ok rest ih =>
    obtain ⟨j, qrest, hqe⟩ := List.exists_cons_of_ne_nil hq
    have hstep := drainStep_eq s ok j qrest hqe hr ht hi
    have hrun : drainRun (ok :: rest) s = drainRun rest (drainStep s ok) := rfl
    rcases Decidable.em (qrest = []) with hrest | hrest
    · subst hrest
      rw [hqe] at hl
      simp at hl
      subst hl
      rw [hrun, hstep]
      simp [drainRun, hqe]
    · rw [hrun, hstep, if_neg hrest]
      have hql : rest.length = qrest.length := by
        rw [hqe] at hl; simpa using hl
      have hqne : qrest ≠ [] := hrest
      have := ih
        { s with
            queue := qrest
            timerPending := true
            inFlight := none
            sent := s.sent ++ [(j, ok)]
            waits := s.waits ++ [s.delay] }
        hqne hr rfl rfl hql
      obtain ⟨c1, c2, c3, c4, c5, c6, c7⟩ := this
      refine ⟨c1, c2, ?_, ?_, ?_, c6, c7⟩
      · simpa using c3
      · rw [c4]
        simp [hqe, List.append_assoc]
      · rw [c5]
        obtain ⟨q2, qrest2, rfl⟩ := List.exists_cons_of_ne_nil hqne
        simp [hqe, List.replicate_succ, List.append_assoc]

theorem evStep_stopped (e : Ev) (s : P0State) (hr : s.isRunning = false)
    (h1 : e ≠ Ev.startNow) (h2 : e ≠ Ev.cronFire) :
    (evStep e s).queue = s.queue ∧ (evStep e s).isRunning = false := by
  cases e with
  | enter =>
    simp only [evStep, enterStep, hr]
    split
    · simp
    · simp [hr]
  | finish ok =>
    cases hif : s.inFlight with
    | none => simp [evStep, finishStep, hif, hr]
    | some j =>
      simp only [evStep, finishStep, hif]
      split <;> simp [hr]
  | stop => exact ⟨rfl, rfl⟩
  | startNow => exact absurd rfl h1
  | cronFire => exact absurd rfl h2

theorem runEvents_stopped (t : List Ev) (s : P0State) (hr : s.isRunning = false)
    (h1 : Ev.startNow ∉ t) (h2 : Ev.cronFire ∉ t) :
    (runEvents t s).queue = s.queue ∧ (runEvents t s).isRunning = false := by
  induction t generalizing s with
  | nil => exact ⟨rfl, hr⟩
  | cons e rest ih =>
    have he1 : e ≠ Ev.startNow := fun h => h1 (h ▸ List.mem_cons_self e rest)
    have he2 : e ≠ Ev.cronFire := fun h => h2 (h ▸ List.mem_cons_self e rest)
    obtain ⟨hq, hrun⟩ := evStep_stopped e s hr he1 he2
    have hrest1 : Ev.startNow ∉ rest := fun h => h1 (List.mem_cons_of_mem e h)
    have hrest2 : Ev.cronFire ∉ rest := fun h => h2 (List.mem_cons_of_mem e h)
    have hstep : runEvents (e :: rest) s = runEvents rest (evStep e s) := rfl
    obtain ⟨ih1, ih2⟩ := ih (evStep e s) hrun hrest1 hrest2
    exact ⟨by rw [hstep, ih1, hq], by rw [hstep]; exact ih2⟩

/-! ### Helper lemmas about the server.js embedding -/

theorem addLog_length_le (logs : List LogEntry) (e : LogEntry) :
    (addLog logs e).length ≤ 100 := by
  unfold addLog
  split
  · simp
    omega
  · omega

theorem addLog_suffix (logs : List LogEntry) (e : LogEntry) :
    (addLog logs e) <:+ logs ++ [e] := by
  unfold addLog
  split
  · exact ⟨(logs ++ [e]).take ((logs ++ [e]).length - 100),
      (logs ++ [e]).take_append_drop _⟩
  · exact List.suffix_refl _

theorem addLog_small (logs : List LogEntry) (e : LogEntry)
    (h : logs.length < 100) : addLog logs e = logs ++ [e] := by
  unfold addLog
  rw [if_neg]
  simp only [List.length_append, List.length_cons, List.length_nil]
  omega

theorem foldl_addLog_le (es : List LogEntry) (logs : List LogEntry)
    (h : logs.length ≤ 100) : (es.foldl addLog logs).length ≤ 100 := by
  induction es generalizing logs with
  | nil => exact h
  | cons e rest ih => exact ih (addLog logs e) (addLog_length_le logs e)

theorem sjRun_recs (delay : Nat) (pairs : List (SJContact × Bool)) :
    (sjRun delay pairs).1 = pairs.map (fun p => ⟨p.1, p.2⟩) := by
  induction pairs with
  | nil => rfl
  | cons p rest ih =>
    obtain ⟨c, ok⟩ := p
    show (⟨c, ok⟩ : SJRec) :: (sjRun delay rest).1 = _
    rw [ih]
    rfl

theorem sjRun_waits (delay : Nat) (pairs : List (SJContact × Bool)) :
    (sjRun delay pairs).2 =
      pairs.dropLast.map (fun p => if p.2 then delay else 1000) := by
  induction pairs with
  | nil => rfl
  | cons p rest ih =>
    obtain ⟨c, ok⟩ := p
    rcases rest with _ | ⟨q, rest2⟩
    · rfl
    · show (if (q :: rest2) = ([] : List (SJContact × Bool)) then
          (sjRun delay (q :: rest2)).2
        else (if ok then delay else 1000) :: (sjRun delay (q :: rest2)).2) = _
      rw [if_neg (List.cons_ne_nil q rest2), ih]
      rfl

/-! ### Helper lemmas about the part_000 routes and the scheduled start -/

theorem startNow_ok (s : P0State) (hq : s.queue ≠ []) (hr : s.isRunning = false) :
    startNowStep s = (Resp.ok, { s with isRunning := true, timerPending := true }) := by
  unfold startNowStep
  rw [if_neg hq, if_neg (by simp [hr])]

theorem upload_ok (s : P0State) (message delayStr startTime : String)
    (delayParsed : Nat) (contacts : List Contact) (hc : contacts ≠ [])
    (hm : message ≠ "") (hd : delayStr ≠ "") (ht : startTime ≠ "") :
    uploadHandler s true (some message) (some delayStr) (some startTime)
        delayParsed contacts
      = (Resp.ok, scheduleDispatch s contacts message (delayParsed * 1000) startTime) := by
  unfold uploadHandler
  rw [if_neg (by simp), if_neg, if_neg hc]
  · simp [jsOrD, hm, ht]
  · simp [jsTruthy, hm, hd, ht]

theorem sjTarget_spec (nowMs h m : Nat) :
    ((h * 60 + m) * 60000 ≤ nowMs % msPerDay →
      sjTarget nowMs h m
        = (nowMs / msPerDay + 1) * msPerDay + (h * 60 + m) * 60000) ∧
    (nowMs % msPerDay < (h * 60 + m) * 60000 →
      sjTarget nowMs h m
        = (nowMs / msPerDay) * msPerDay + (h * 60 + m) * 60000) ∧
    nowMs < sjTarget nowMs h m := by
  unfold sjTarget msPerDay
  split
  · exact ⟨fun h1 => by omega, fun h2 => by omega, by omega⟩
  · exact ⟨fun h1 => by omega, fun h2 => by omega, by omega⟩

/-! ### The claims -/

/-- C1: for every non-empty batch, the upload route (enqueueBatch) followed
by a successful start-now causes the part_000 drain loop to process the
jobs sequentially in queue order until the queue is empty, and when the
queue becomes empty the running flag is set to false exactly once
(completions counter), regardless of whether each individual send succeeds
or fails. -/
theorem C1_enqueue_start_drains (s : P0State) (contacts : List Contact)
    (message delayStr startTime : String) (delayParsed : Nat) (outcomes : List Bool)
    (hc : contacts ≠ []) (hrun : s.isRunning = false) (hin : s.inFlight = none)
    (hm : message ≠ "") (hd : delayStr ≠ "") (ht : startTime ≠ "")
    (hl : outcomes.length = contacts.length) :
    (uploadThenStartNow s message delayStr startTime delayParsed contacts).1 = Resp.ok ∧
    (uploadThenStartNow s message delayStr startTime delayParsed contacts).2.1 = Resp.ok ∧
    (drainRun outcomes
      (uploadThenStartNow s message delayStr startTime delayParsed contacts).2.2).queue = [] ∧
    (drainRun outcomes
      (uploadThenStartNow s message delayStr startTime delayParsed contacts).2.2).isRunning
      = false ∧
    (drainRun outcomes
      (uploadThenStartNow s message delayStr startTime delayParsed contacts).2.2).completions
      = s.completions + 1 ∧
    (drainRun outcomes
      (uploadThenStartNow s message delayStr startTime delayParsed contacts).2.2).sent
      = s.sent ++ (contacts.map (mkJob message)).zip outcomes := by
  have hu := upload_ok s message delayStr startTime delayParsed contacts hc hm hd ht
  have hq1 : (scheduleDispatch s contacts message (delayParsed * 1000) startTime).queue ≠ [] := by
    simp [scheduleDispatch, hc]
  have hr1 : (scheduleDispatch s contacts message (delayParsed * 1000) startTime).isRunning
      = false := hrun
  have hs := startNow_ok _ hq1 hr1
  have hrw : uploadThenStartNow s message delayStr startTime delayParsed contacts
      = (Resp.ok, Resp.ok,
        { scheduleDispatch s contacts message (delayParsed * 1000) startTime with
            isRunning := true
            timerPending := true }) := by
    unfold uploadThenStartNow
    rw [hu, hs]
  rw [hrw]
  have hdr := drainRun_spec outcomes
    { scheduleDispatch s contacts message (delayParsed * 1000) startTime with
        isRunning := true
        timerPending := true }
    (by simpa [scheduleDispatch] using hq1) rfl rfl hin
    (by simpa [scheduleDispatch] using hl.trans (List.length_map contacts (mkJob message)).symm)
  obtain ⟨d1, d2, d3, d4, d5, d6, d7⟩ := hdr
  exact ⟨rfl, rfl, d1, d2, d3, d4⟩

/-- Witness for C1 at a concrete one-job batch with a successful send. -/
theorem C1_witness :
    ([cAna] ≠ ([] : List Contact)) ∧
    (uploadThenStartNow p0Init "Olá {nome}" "5" "08:00" 5 [cAna]).1 = Resp.ok ∧
    (uploadThenStartNow p0Init "Olá {nome}" "5" "08:00" 5 [cAna]).2.1 = Resp.ok ∧
    (drainRun [true]
      (uploadThenStartNow p0Init "Olá {nome}" "5" "08:00" 5 [cAna]).2.2).queue = [] ∧
    (drainRun [true]
      (uploadThenStartNow p0Init "Olá {nome}" "5" "08:00" 5 [cAna]).2.2).isRunning = false ∧
    (drainRun [true]
      (uploadThenStartNow p0Init "Olá {nome}" "5" "08:00" 5 [cAna]).2.2).completions
      = p0Init.completions + 1 ∧
    (drainRun [true]
      (uploadThenStartNow p0Init "Olá {nome}" "5" "08:00" 5 [cAna]).2.2).sent
      = p0Init.sent ++ ([cAna].map (mkJob "Olá {nome}")).zip [true] := by
  have h := C1_enqueue_start_drains p0Init [cAna] "Olá {nome}" "5" "08:00" 5 [true]
    (by decide) rfl rfl (by decide) (by decide) (by decide) rfl
  exact ⟨by decide, h.1, h.2.1, h.2.2.1, h.2.2.2.1, h.2.2.2.2.1, h.2.2.2.2.2⟩

/-- Counterexample to C2: in part_000, a valid upload performed while
running is answered with success (not a 400 conflict) and mutates the
pending queue, the delay and the stored start time. -/
theorem C2_counterexample :
    c2State.isRunning = true ∧
    (uploadHandler c2State true (some "Olá {nome}") (some "10") (some "08:00") 10
      [cBia]).1 = Resp.ok ∧
    (uploadHandler c2State true (some "Olá {nome}") (some "10") (some "08:00") 10
      [cBia]).2.queue ≠ c2State.queue ∧
    (uploadHandler c2State true (some "Olá {nome}") (some "10") (some "08:00") 10
      [cBia]).2.delay ≠ c2State.delay ∧
    (uploadHandler c2State true (some "Olá {nome}") (some "10") (some "08:00") 10
      [cBia]).2.startTime ≠ c2State.startTime := by decide

/-- C2 amended: in part_000 the upload operation performs no running-state
check: with a file, truthy parameters and a non-empty parsed contact list
it always succeeds and scheduleDispatch replaces the queue and overwrites
delay and scheduledAt while leaving the running flag as it was; a 400
response with unchanged state occurs exactly for a missing file, missing
parameters, or zero parsed contacts. -/
theorem C2_amended (s : P0State) (message delayStr startTime : String)
    (delayParsed : Nat) (contacts : List Contact)
    (hc : contacts ≠ []) (hm : message ≠ "") (hd : delayStr ≠ "") (ht : startTime ≠ "") :
    (uploadHandler s true (some message) (some delayStr) (some startTime)
      delayParsed contacts).1 = Resp.ok ∧
    (uploadHandler s true (some message) (some delayStr) (some startTime)
        delayParsed contacts).2
      = scheduleDispatch s contacts message (delayParsed * 1000) startTime ∧
    (scheduleDispatch s contacts message (delayParsed * 1000) startTime).queue
      = contacts.map (mkJob message) ∧
    (scheduleDispatch s contacts message (delayParsed * 1000) startTime).delay
      = delayParsed * 1000 ∧
    (scheduleDispatch s contacts message (delayParsed * 1000) startTime).startTime
      = some startTime ∧
    (scheduleDispatch s contacts message (delayParsed * 1000) startTime).isRunning
      = s.isRunning ∧
    uploadHandler s false (some message) (some delayStr) (some startTime)
        delayParsed contacts
      = (Resp.err 400 "Arquivo CSV não enviado", s) ∧
    uploadHandler s true none (some delayStr) (some startTime) delayParsed contacts
      = (Resp.err 400 "Parâmetros obrigatórios não fornecidos", s) ∧
    uploadHandler s true (some message) (some delayStr) (some startTime) delayParsed []
      = (Resp.err 400 "Nenhum contato válido encontrado no CSV", s) := by
  have hu := upload_ok s message delayStr startTime delayParsed contacts hc hm hd ht
  refine ⟨by rw [hu], by rw [hu], rfl, rfl, rfl, rfl, ?_, ?_, ?_⟩
  · unfold uploadHandler
    rw [if_pos rfl]
  · unfold uploadHandler
    rw [if_neg (by simp), if_pos (by simp [jsTruthy])]
  · unfold uploadHandler
    rw [if_neg (by simp), if_neg (by simp [jsTruthy, hm, hd, ht]), if_pos rfl]

/-- Witness for C2 at a concrete running state. -/
theorem C2_witness :
    ([cBia] ≠ ([] : List Contact)) ∧
    c2State.isRunning = true ∧
    (uploadHandler c2State true (some "Olá {nome}") (some "5") (some "08:00") 5
      [cBia]).1 = Resp.ok ∧
    (uploadHandler c2State true (some "Olá {nome}") (some "5") (some "08:00") 5
        [cBia]).2
      = scheduleDispatch c2State [cBia] "Olá {nome}" 5000 "08:00" ∧
    (scheduleDispatch c2State [cBia] "Olá {nome}" 5000 "08:00").isRunning
      = c2State.isRunning := by
  have h := C2_amended c2State "Olá {nome}" "5" "08:00" 5 [cBia]
    (by decide) (by decide) (by decide) (by decide)
  exact ⟨by decide, by decide, h.1, h.2.1, h.2.2.2.2.2.1⟩

/-- Counterexample to C3: a stop issued during the pre-schedule wait does
not cancel the armed cron; when the cron fires it sets running back to
true and the next invocation dequeues a job and starts its send. -/
theorem C3_counterexample :
    c3State.isRunning = false ∧
    c3State.queue = [jAna] ∧
    (evStep Ev.stop c3State).isRunning = false ∧
    (runEvents [Ev.cronFire, Ev.enter] (evStep Ev.stop c3State)).queue = [] ∧
    (runEvents [Ev.cronFire, Ev.enter] (evStep Ev.stop c3State)).inFlight
      = some jAna := by decide

/-- C3 amended: once stop has set running to false, the drain loop itself
never dequeues a further job: the send already in flight (if any) is
allowed to complete and is recorded, and no later enter or finish event
removes a job from the queue, as long as no subsequent start-now occurs
and the armed cron does not fire; a stop during the pre-schedule wait does
not prevent the armed cron from later restarting the batch. -/
theorem C3_amended (s : P0State) (t : List Ev)
    (h1 : Ev.startNow ∉ t) (h2 : Ev.cronFire ∉ t) :
    (evStep Ev.stop s).isRunning = false ∧
    (runEvents t (evStep Ev.stop s)).queue = s.queue ∧
    (runEvents t (evStep Ev.stop s)).isRunning = false ∧
    (∀ j ok, s.inFlight = some j →
      (evStep (Ev.finish ok) (evStep Ev.stop s)).sent = s.sent ++ [(j, ok)]) := by
  obtain ⟨hq, hrun⟩ := runEvents_stopped t (evStep Ev.stop s) rfl h1 h2
  refine ⟨rfl, hq, hrun, ?_⟩
  intro j ok hj
  simp only [evStep, finishStep, stopStep, hj]
  split <;> rfl

/-- Witness for C3 at a concrete running state and event trace. -/
theorem C3_witness :
    (Ev.startNow ∉ [Ev.enter, Ev.finish true, Ev.enter, Ev.stop]) ∧
    (Ev.cronFire ∉ [Ev.enter, Ev.finish true, Ev.enter, Ev.stop]) ∧
    (evStep Ev.stop c2State).isRunning = false ∧
    (runEvents [Ev.enter, Ev.finish true, Ev.enter, Ev.stop]
      (evStep Ev.stop c2State)).queue = c2State.queue ∧
    (runEvents [Ev.enter, Ev.finish true, Ev.enter, Ev.stop]
      (evStep Ev.stop c2State)).isRunning = false := by
  have h := C3_amended c2State [Ev.enter, Ev.finish true, Ev.enter, Ev.stop]
    (by decide) (by decide)
  exact ⟨by decide, by decide, h.1, h.2.1, h.2.2.1⟩

/-- C4: start-now fails and changes no scheduler state whenever its
precondition is violated: on an empty queue it fails with the
empty-queue error leaving the state (in particular the running flag)
unchanged, and while running it fails with the already-running error
leaving the state (in particular the queue, hence no reorder, duplicate
or dequeue) unchanged; this holds for both the part_000 and the part_002
route. -/
theorem C4_startNow_guards (s : P0State) (s2 : P2State) :
    (s.queue = [] → startNowStep s = (Resp.err 400 "Nenhuma mensagem na fila", s)) ∧
    (s.queue ≠ [] → s.isRunning = true →
      startNowStep s = (Resp.err 400 "Disparo já está em execução", s)) ∧
    (s2.queue = [] → p2StartNow s2 = (Resp.err 400 "Nenhuma mensagem na fila", s2)) ∧
    (s2.queue ≠ [] → s2.isRunning = true →
      p2StartNow s2 = (Resp.err 400 "Disparo já está em execução", s2)) := by
  refine ⟨fun h => ?_, fun h hr => ?_, fun h => ?_, fun h hr => ?_⟩
  · unfold startNowStep
    rw [if_pos h]
  · unfold startNowStep
    rw [if_neg h, if_pos hr]
  · unfold p2StartNow
    rw [if_pos h]
  · unfold p2StartNow
    rw [if_neg h, if_pos hr]

/-- Witness for C4 on concrete empty and running states of both variants. -/
theorem C4_witness :
    p0Init.queue = [] ∧
    startNowStep p0Init = (Resp.err 400 "Nenhuma mensagem na fila", p0Init) ∧
    c2State.queue ≠ [] ∧
    c2State.isRunning = true ∧
    startNowStep c2State = (Resp.err 400 "Disparo já está em execução", c2State) ∧
    p2Empty.queue = [] ∧
    p2StartNow p2Empty = (Resp.err 400 "Nenhuma mensagem na fila", p2Empty) ∧
    p2Busy.queue ≠ [] ∧
    p2Busy.isRunning = true ∧
    p2StartNow p2Busy = (Resp.err 400 "Disparo já está em execução", p2Busy) := by
  have ha := C4_startNow_guards p0Init p2Empty
  have hb := C4_startNow_guards c2State p2Busy
  exact ⟨rfl, ha.1 rfl, by decide, rfl, hb.2.1 (by decide) rfl,
    rfl, ha.2.2.1 rfl, by decide, rfl, hb.2.2.2 (by decide) rfl⟩

/-- Counterexample to C5: the part_000 templating replaces only the first
occurrence of the name token, not every occurrence. -/
theorem C5_counterexample :
    renderP0 "Oi {name} {name}" "Ana" = "Oi Ana {name}" ∧
    renderP0 "Oi {name} {name}" "Ana" ≠ "Oi Ana Ana" := by decide

/-- C5 amended: before each send the scheduler substitutes the display
name of the contact into the name placeholder tokens of the body: part_000
replaces the first occurrence of each token, part_002 every occurrence
(the template Hi {name}! with name Ana renders Hi Ana! in both); a body
with no token is passed through unchanged; and a per-contact message
supplied at enqueue time is used in place of the shared template of the
batch. -/
theorem C5_amended :
    (∀ mensagem nome : String,
      ¬ "{nome}".data <:+: mensagem.data → ¬ "{name}".data <:+: mensagem.data →
      renderP0 mensagem nome = mensagem ∧ renderP2 mensagem nome = mensagem) ∧
    renderP0 "Hi {name}!" "Ana" = "Hi Ana!" ∧
    renderP2 "Hi {name}!" "Ana" = "Hi Ana!" ∧
    renderP0 "Oi {name} {name}" "Ana" = "Oi Ana {name}" ∧
    renderP2 "Oi {name} {name}" "Ana" = "Oi Ana Ana" ∧
    (∀ (template : String) (c : Contact) (m : String),
      c.mensagem = some m → m ≠ "" → (mkJob template c).mensagem = m) ∧
    (∀ (template : String) (c : Contact),
      c.mensagem = none → (mkJob template c).mensagem = template) := by
  refine ⟨?_, by decide, by decide, by decide, by decide, ?_, ?_⟩
  · intro mensagem nome h1 h2
    constructor
    · show (⟨replaceFirst (replaceFirst mensagem.data "{nome}".data nome.data)
          "{name}".data nome.data⟩ : String) = mensagem
      rw [replaceFirst_no_occ _ _ _ h1, replaceFirst_no_occ _ _ _ h2]
    · show (⟨replaceAll (replaceAll mensagem.data "{nome}".data nome.data)
          "{name}".data nome.data⟩ : String) = mensagem
      rw [replaceAll_no_occ _ _ _ h1, replaceAll_no_occ _ _ _ h2]
  · intro template c m hc hm
    simp [mkJob, jsOrD, hc, hm]
  · intro template c hc
    simp [mkJob, jsOrD, hc]

/-- Witness for C5 on a token-free body and on per-contact overrides. -/
theorem C5_witness :
    (¬ "{nome}".data <:+: "Bom dia!".data) ∧
    (¬ "{name}".data <:+: "Bom dia!".data) ∧
    renderP0 "Bom dia!" "Ana" = "Bom dia!" ∧
    renderP2 "Bom dia!" "Ana" = "Bom dia!" ∧
    (mkJob "Olá {nome}" cBia).mensagem = "Oi {nome}" ∧
    (mkJob "Olá {nome}" cAna).mensagem = "Olá {nome}" := by
  have h := C5_amended
  refine ⟨by decide, by decide, (h.1 "Bom dia!" "Ana" (by decide) (by decide)).1,
    (h.1 "Bom dia!" "Ana" (by decide) (by decide)).2,
    h.2.2.2.2.2.1 "Olá {nome}" cBia "Oi {nome}" rfl (by decide),
    h.2.2.2.2.2.2 "Olá {nome}" cAna rfl⟩

/-- Counterexample to C6: the part_000 CSV ingestion never prepends the
country code 55, and a row with an unparseable (digit-free) phone field
still produces a job with an empty recipient. -/
theorem C6_counterexample :
    processCSVRow ⟨some "11987654321", none, none, none, none, none⟩
      = some ⟨"Contato", "11987654321", none⟩ ∧
    ("11987654321" : String) ≠ "5511987654321" ∧
    processCSVRow ⟨some "abc", none, none, none, none, none⟩
      = some ⟨"Contato", "", none⟩ := by decide

/-- C6 amended: in the server.js row handler the phone field is stripped
to digits, a row is kept only when at least 10 digits remain (so empty or
unparseable phones produce no job) and 55 is prepended when missing
(11987654321 becomes 5511987654321); in the part_000 ingestion the phone
is only stripped to digits, with a row kept whenever the raw phone field
is truthy; in both variants a batch in which every row is dropped is
rejected with a 400 upload-level error and no state change. -/
theorem C6_amended (r : SJRow) (rp : P0Row) (sd : SendingData) :
    rowToContact ⟨some "11987654321", none, none⟩
      = some ⟨"5511987654321", "Cliente", "Olá!"⟩ ∧
    ((stripNonDigits (jsOrD r.telefone "")).data.length < 10 → rowToContact r = none) ∧
    (∀ c, rowToContact r = some c →
      c.telefone
        = (if jsStartsWith (stripNonDigits (jsOrD r.telefone "")) "55" then
            stripNonDigits (jsOrD r.telefone "")
          else "55" ++ stripNonDigits (jsOrD r.telefone ""))) ∧
    (jsTruthy (jsOr2 rp.numero rp.number) = false → processCSVRow rp = none) ∧
    (∀ c, processCSVRow rp = some c →
      ∃ v, jsOrNull (jsOr2 rp.numero rp.number) = some v ∧
        c.numero = stripNonDigits v) ∧
    uploadCsvEnd sd []
      = (Resp.err 400
          "Nenhum contato válido encontrado no CSV. Verifique as colunas: telefone, nome, mensagem",
        sd) ∧
    uploadHandler p0Init true (some "Olá") (some "5") (some "08:00") 5 []
      = (Resp.err 400 "Nenhum contato válido encontrado no CSV", p0Init) := by
  refine ⟨by decide, ?_, ?_, ?_, ?_, rfl, by decide⟩
  · intro hlen
    unfold rowToContact
    rw [if_neg]
    intro ⟨h1, h2⟩
    omega
  · intro c hc
    unfold rowToContact at hc
    split at hc
    · simp only [Option.some.injEq] at hc
      rw [← hc]
    · exact absurd hc (by simp)
  · intro ht
    unfold processCSVRow
    cases hnn : jsOr2 rp.numero rp.number with
    | none => rfl
    | some v =>
      rw [hnn] at ht
      simp [jsTruthy] at ht
      simp [jsOrNull, ht]
  · intro c hc
    unfold processCSVRow at hc
    cases hnn : jsOrNull (jsOr2 rp.numero rp.number) with
    | none => rw [hnn] at hc; exact absurd hc (by simp)
    | some v =>
      rw [hnn] at hc
      simp only [Option.some.injEq] at hc
      exact ⟨v, rfl, by rw [← hc]⟩

/-- Witness for C6 on concrete short-phone and falsy-phone rows. -/
theorem C6_witness :
    ((stripNonDigits (jsOrD (some "abc") "")).data.length < 10) ∧
    rowToContact ⟨some "abc", none, none⟩ = none ∧
    (jsTruthy (jsOr2 (some "") none) = false) ∧
    processCSVRow ⟨some "", none, none, none, none, none⟩ = none ∧
    rowToContact ⟨some "11987654321", none, none⟩
      = some ⟨"5511987654321", "Cliente", "Olá!"⟩ := by
  have h := C6_amended ⟨some "abc", none, none⟩ ⟨some "", none, none, none, none, none⟩
    ⟨0, 0, []⟩
  exact ⟨by decide, h.2.1 (by decide), by decide, h.2.2.2.1 (by decide), h.1⟩

/-- C7: when a scheduled start time HH:MM is supplied to the server.js
start-sending route and that time of day has already passed (or is the
current minute), the batch is armed for HH:MM on the following day and
not started immediately; when HH:MM is still ahead on the current day the
batch is armed for that time today; in both cases the target instant is
strictly in the future. -/
theorem C7_scheduled_start (n nowMs h m : Nat) (hn : 0 < n) (hh : h < 24)
    (hm : m < 60) :
    ((h * 60 + m) * 60000 ≤ nowMs % msPerDay →
      startSendingHandler true false n (some (h, m)) nowMs
        = .scheduled ((nowMs / msPerDay + 1) * msPerDay + (h * 60 + m) * 60000)) ∧
    (nowMs % msPerDay < (h * 60 + m) * 60000 →
      startSendingHandler true false n (some (h, m)) nowMs
        = .scheduled ((nowMs / msPerDay) * msPerDay + (h * 60 + m) * 60000)) ∧
    nowMs < sjTarget nowMs h m := by
  obtain ⟨h1, h2, h3⟩ := sjTarget_spec nowMs h m
  have hns : ¬ n = 0 := by omega
  have hrun : startSendingHandler true false n (some (h, m)) nowMs
      = if 0 < sjTarget nowMs h m - nowMs then .scheduled (sjTarget nowMs h m)
        else .immediate := by
    unfold startSendingHandler
    rw [if_neg (by simp), if_neg hns, if_neg (by simp)]
  refine ⟨fun hp => ?_, fun hf => ?_, h3⟩
  · rw [hrun, if_pos (by omega), h1 hp]
  · rw [hrun, if_pos (by omega), h2 hf]

/-- Witness for C7 at 09:00 and 07:00 with a 08:00 start time. -/
theorem C7_witness :
    ((0 : Nat) < 1) ∧ ((8 : Nat) < 24) ∧ ((0 : Nat) < 60) ∧
    ((8 * 60 + 0) * 60000 ≤ 32400000 % msPerDay) ∧
    startSendingHandler true false 1 (some (8, 0)) 32400000
      = .scheduled ((32400000 / msPerDay + 1) * msPerDay + (8 * 60 + 0) * 60000) ∧
    ((32400000 / msPerDay + 1) * msPerDay + (8 * 60 + 0) * 60000 = 115200000) ∧
    (25200000 % msPerDay < (8 * 60 + 0) * 60000) ∧
    startSendingHandler true false 1 (some (8, 0)) 25200000
      = .scheduled ((25200000 / msPerDay) * msPerDay + (8 * 60 + 0) * 60000) ∧
    ((25200000 / msPerDay) * msPerDay + (8 * 60 + 0) * 60000 = 28800000) := by
  have ha := C7_scheduled_start 1 32400000 8 0 (by decide) (by decide) (by decide)
  have hb := C7_scheduled_start 1 25200000 8 0 (by decide) (by decide) (by decide)
  exact ⟨by decide, by decide, by decide, by decide, ha.1 (by decide), by decide,
    by decide, hb.2.1 (by decide), by decide⟩

/-- Counterexample to C8: in part_000 a failed send is followed by the
configured inter-message delay (5000 ms here), not by a distinct 1000 ms
failure backoff. -/
theorem C8_counterexample :
    c8State.delay = 5000 ∧
    (drainRun [false, true] c8State).sent = [(jAna, false), (jBia, true)] ∧
    (drainRun [false, true] c8State).waits = [5000] ∧
    ((5000 : Nat) ≠ 1000) := by decide

/-- C8 amended: a failed send never aborts the batch and is never retried:
every contact is processed exactly once in order and the outcome of each
send is recorded; in server.js the wait after a failed send is a fixed
1000 ms backoff while a successful send is followed by the configured
delay; in part_000 the configured inter-message delay is waited after
success and failure alike. -/
theorem C8_amended (delay : Nat) (contacts : List SJContact) (outcomes : List Bool)
    (hl : outcomes.length = contacts.length)
    (s : P0State) (hq : s.queue ≠ []) (hr : s.isRunning = true)
    (ht : s.timerPending = true) (hi : s.inFlight = none)
    (outcomes0 : List Bool) (hl0 : outcomes0.length = s.queue.length) :
    (sjRun delay (contacts.zip outcomes)).1.map SJRec.contact = contacts ∧
    (sjRun delay (contacts.zip outcomes)).1.map SJRec.ok = outcomes ∧
    (sjRun delay (contacts.zip outcomes)).2
      = (contacts.zip outcomes).dropLast.map (fun p => if p.2 then delay else 1000) ∧
    (drainRun outcomes0 s).queue = [] ∧
    (drainRun outcomes0 s).waits
      = s.waits ++ List.replicate (s.queue.length - 1) s.delay := by
  obtain ⟨d1, d2, d3, d4, d5, d6, d7⟩ := drainRun_spec outcomes0 s hq hr ht hi hl0
  refine ⟨?_, ?_, sjRun_waits delay (contacts.zip outcomes), d1, d5⟩
  · rw [sjRun_recs, List.map_map]
    have hco : (SJRec.contact ∘ fun p : SJContact × Bool => (⟨p.1, p.2⟩ : SJRec))
        = Prod.fst := rfl
    rw [hco]
    exact List.map_fst_zip contacts outcomes (by omega)
  · rw [sjRun_recs, List.map_map]
    have hco : (SJRec.ok ∘ fun p : SJContact × Bool => (⟨p.1, p.2⟩ : SJRec))
        = Prod.snd := rfl
    rw [hco]
    exact List.map_snd_zip contacts outcomes (by omega)

/-- Witness for C8 on a concrete two-contact batch with one failure. -/
theorem C8_witness :
    ([false, true].length = [sjA, sjB].length) ∧
    (sjRun 7000 ([sjA, sjB].zip [false, true])).1.map SJRec.contact = [sjA, sjB] ∧
    (sjRun 7000 ([sjA, sjB].zip [false, true])).1.map SJRec.ok = [false, true] ∧
    (sjRun 7000 ([sjA, sjB].zip [false, true])).2 = [1000] ∧
    (drainRun [false, true] c8State).waits
      = c8State.waits ++ List.replicate (c8State.queue.length - 1) c8State.delay := by
  have h := C8_amended 7000 [sjA, sjB] [false, true] rfl c8State (by decide) rfl rfl rfl
    [false, true] rfl
  refine ⟨rfl, h.1, h.2.1, ?_, h.2.2.2.2⟩
  rw [h.2.2.1]
  decide

/-- C9: the in-memory operation log is bounded: after every call to addLog
the log holds at most 100 entries and is a suffix of the pushed list (so
the oldest entries are discarded first); below 100 entries addLog is a
plain append; and no non-empty sequence of addLog calls grows the buffer
beyond 100. -/
theorem C9_log_bounded (logs : List LogEntry) (e : LogEntry) :
    (addLog logs e).length ≤ 100 ∧
    addLog logs e <:+ logs ++ [e] ∧
    (logs.length < 100 → addLog logs e = logs ++ [e]) ∧
    (∀ es : List LogEntry, es ≠ [] → (es.foldl addLog logs).length ≤ 100) := by
  refine ⟨addLog_length_le logs e, addLog_suffix logs e, addLog_small logs e, ?_⟩
  intro es hne
  cases es with
  | nil => exact absurd rfl hne
  | cons e2 rest =>
    show (rest.foldl addLog (addLog logs e2)).length ≤ 100
    exact foldl_addLog_le rest (addLog logs e2) (addLog_length_le logs e2)

/-- Witness for C9 from the empty log. -/
theorem C9_witness :
    (([] : List LogEntry).length < 100) ∧
    addLog [] le0 = [le0] ∧
    ([le0, le0] ≠ ([] : List LogEntry)) ∧
    (([le0, le0].foldl addLog []).length ≤ 100) := by
  have h := C9_log_bounded ([] : List LogEntry) le0
  exact ⟨by decide, by simpa using h.2.2.1 (by decide), by simp,
    h.2.2.2 [le0, le0] (by simp)⟩
/-- C10: in part_000 the stop operation mutates only the running flag,
leaving the pending queue, the configured delay and the stored start time
unchanged, so the jobs remaining after a stop are exactly those not yet
dequeued and a later start-now resumes sending exactly them. -/
theorem C10_stop_frame (s : P0State) (outcomes : List Bool)
    (hq : s.queue ≠ []) (hin : s.inFlight = none)
    (hl : outcomes.length = s.queue.length) :
    stopStep s = { s with isRunning := false } ∧
    (stopStep s).queue = s.queue ∧
    (stopStep s).delay = s.delay ∧
    (stopStep s).startTime = s.startTime ∧
    (startNowStep (stopStep s)).1 = Resp.ok ∧
    (drainRun outcomes (startNowStep (stopStep s)).2).queue = [] ∧
    (drainRun outcomes (startNowStep (stopStep s)).2).sent
      = s.sent ++ s.queue.zip outcomes := by
  have hs := startNow_ok (stopStep s) hq rfl
  have hdr := drainRun_spec outcomes
    { stopStep s with isRunning := true, timerPending := true } hq rfl rfl hin hl
  obtain ⟨d1, d2, d3, d4, d5, d6, d7⟩ := hdr
  rw [hs]
  exact ⟨rfl, rfl, rfl, rfl, rfl, d1, d4⟩

/-- Witness for C10 on a concrete two-job queue. -/
theorem C10_witness :
    ({ p0Init with queue := [jAna, jBia] } : P0State).queue ≠ [] ∧
    stopStep { p0Init with queue := [jAna, jBia] }
      = { ({ p0Init with queue := [jAna, jBia] } : P0State) with isRunning := false } ∧
    (startNowStep (stopStep { p0Init with queue := [jAna, jBia] })).1 = Resp.ok ∧
    (drainRun [true, false]
      (startNowStep (stopStep { p0Init with queue := [jAna, jBia] })).2).queue = [] ∧
    (drainRun [true, false]
      (startNowStep (stopStep { p0Init with queue := [jAna, jBia] })).2).sent
      = ({ p0Init with queue := [jAna, jBia] } : P0State).sent
        ++ ({ p0Init with queue := [jAna, jBia] } : P0State).queue.zip [true, false] := by
  have h := C10_stop_frame { p0Init with queue := [jAna, jBia] } [true, false]
    (by decide) rfl rfl
  exact ⟨by decide, h.1, h.2.2.2.2.1, h.2.2.2.2.2.1, h.2.2.2.2.2.2⟩

